import Mathlib

/-!
Verification of the error-classification and response pipeline of the
Barcelona_design repository, together with its validator adapter and
configuration loader.  Every definition is a shallow embedding of the
JavaScript source in `src/middleware/errorHandler.js`,
`src/middleware/validator.js` and `src/controllers/mainController.js`
(which also carries the routes and the `ConfigManager` module).
-/

/-! ## Build mode

`process.env.NODE_ENV === 'development'` is the only flag the handler reads.
`production` stands for every value of the flag other than `'development'`. -/

deriving instance DecidableEq for Except

inductive BuildMode where
  | development
  | production
deriving DecidableEq

/-! ## Failure records

The error object reaching `errorHandler(err, req, res, next)`.  JavaScript
fields that may be absent are `Option`s; `message` is a `String` because an
`Error` always carries one (possibly empty), and the handler's
`err.message || 'Internal Server Error'` treats the empty string as absent.
`errors` holds the `val.message` strings of `Object.values(err.errors)` in
insertion order (used only by the `ValidationError` branch). -/

structure JsError where
  name : String
  code : Option Int
  message : String
  statusCode : Option Nat
  status : Option String
  isOperational : Option Bool
  errors : List String
  stack : Option String
deriving DecidableEq

/-- `err.statusCode || 500` (line 37): `0`, like `undefined`, is falsy. -/
def jsOrDefaultCode : Option Nat → Nat
  | none => 500
  | some n => if n = 0 then 500 else n

/-- `err.message || 'Internal Server Error'` (line 38): `""` is falsy. -/
def jsOrDefaultMsg (s : String) : String :=
  if s = "" then "Internal Server Error" else s

/-- Lines 37-38 assign the defaulted values back onto the original error
object: this is the handler's in-place mutation of the failure record. -/
def normalizeErr (e : JsError) : JsError :=
  { e with statusCode := some (jsOrDefaultCode e.statusCode),
           message := jsOrDefaultMsg e.message }

/-- `` `${statusCode}`.startsWith('4') ? 'fail' : 'error' `` (line 22):
the first decimal digit of the status code decides the status word. -/
def statusFromCode (n : Nat) : String :=
  match (Nat.repr n).data with
  | c :: _ => if c = '4' then "fail" else "error"
  | [] => "error"

/-- The `AppError` class (lines 11-25).  The handler always builds it with
the default `isOperational = true`; `status` is derived at construction. -/
structure AppError where
  message : String
  statusCode : Nat
  isOperational : Bool
  status : String
deriving DecidableEq

def AppError.make (message : String) (statusCode : Nat) : AppError :=
  { message := message, statusCode := statusCode, isOperational := true,
    status := statusFromCode statusCode }

/-- The local `error` variable of the handler: either the plain-object copy
`{ ...err }` (plus the explicitly copied `message` / `statusCode`,
lines 40-44) or a freshly constructed `AppError` from one of the five
classification branches. -/
inductive HandlerError where
  | plainObj (statusCode : Nat) (message : String) (status : Option String)
      (isOperational : Option Bool)
  | app (a : AppError)
deriving DecidableEq

/-- The `stack` field of the JSON body (line 83).
`emptyObj` is the production value `{}`; in development the plain-object
branch has no own `stack` (an object spread does not copy the
non-enumerable `stack` of an `Error`), so the key is `absent`, while an
`AppError` carries a trace freshly `captured` at construction time (it is a
trace of the handler itself, never derived from the incoming failure). -/
inductive StackField where
  | emptyObj
  | absent
  | captured
deriving DecidableEq

/-- The own enumerable properties of the `error:` value in the JSON body.
For an `AppError`, `message` and `stack` are non-enumerable, so only
`statusCode`, `isOperational` and `status` are serialized; for the
plain-object branch, `message` and `statusCode` were assigned enumerably
(lines 43-44) next to whatever own enumerable fields `err` had. -/
structure ErrorDetail where
  statusCode : Option Nat
  isOperational : Option Bool
  status : Option String
  message : Option String
deriving DecidableEq

/-- The JSON body written at lines 79-84. -/
structure ErrResponse where
  httpStatus : Nat
  status : Option String
  detail : ErrorDetail
  message : String
  stack : StackField
deriving DecidableEq

/-- Lines 40-71: the sequence of independent `if` statements.  Each match
overwrites `error`; the conditions keep reading the original `err`, whose
`name` and `code` the lines 37-38 mutation never touches. -/
def classifyErr (e : JsError) : HandlerError :=
  let base := HandlerError.plainObj (jsOrDefaultCode e.statusCode)
      (jsOrDefaultMsg e.message) e.status e.isOperational
  let e1 := if e.name = "CastError" then
      HandlerError.app (AppError.make "Invalid ID format" 400) else base
  let e2 := if e.code = some 11000 then
      HandlerError.app (AppError.make "Duplicate field value entered" 400) else e1
  let e3 := if e.name = "ValidationError" then
      HandlerError.app (AppError.make (String.intercalate ", " e.errors) 400) else e2
  let e4 := if e.name = "JsonWebTokenError" then
      HandlerError.app (AppError.make "Invalid token" 401) else e3
  if e.name = "TokenExpiredError" then
    HandlerError.app (AppError.make "Token expired" 401) else e4

/-- Lines 79-84: `res.status(error.statusCode).json({...})`. -/
def buildResponse : HandlerError → BuildMode → ErrResponse
  | .plainObj sc msg st op, mode =>
    { httpStatus := sc, status := st,
      detail := { statusCode := some sc, isOperational := op, status := st,
                  message := some msg },
      message := msg,
      stack := if mode = .development then .absent else .emptyObj }
  | .app a, mode =>
    { httpStatus := a.statusCode, status := some a.status,
      detail := { statusCode := some a.statusCode,
                  isOperational := some a.isOperational,
                  status := some a.status, message := none },
      message := a.message,
      stack := if mode = .development then .captured else .emptyObj }

/-- The whole handler: first component is the state of the original failure
object after the call (lines 37-38 mutate it), second the written body. -/
def errorHandlerPair (e : JsError) (mode : BuildMode) : JsError × ErrResponse :=
  (normalizeErr e, buildResponse (classifyErr e) mode)

def errorHandler (e : JsError) (mode : BuildMode) : ErrResponse :=
  (errorHandlerPair e mode).2

/-! ## Classification kinds, in the order the source checks them -/

inductive ClassKind where
  | cast
  | dup
  | validation
  | jwt
  | expired
deriving DecidableEq

def ruleMatches (e : JsError) : ClassKind → Bool
  | .cast => e.name == "CastError"
  | .dup => e.code == some 11000
  | .validation => e.name == "ValidationError"
  | .jwt => e.name == "JsonWebTokenError"
  | .expired => e.name == "TokenExpiredError"

def ruleOrder : List ClassKind :=
  [.cast, .dup, .validation, .jwt, .expired]

def matchedKinds (e : JsError) : List ClassKind :=
  ruleOrder.filter (ruleMatches e)

/-- The fixed table entry each classification branch constructs. -/
def classEntry (e : JsError) : ClassKind → AppError
  | .cast => AppError.make "Invalid ID format" 400
  | .dup => AppError.make "Duplicate field value entered" 400
  | .validation => AppError.make (String.intercalate ", " e.errors) 400
  | .jwt => AppError.make "Invalid token" 401
  | .expired => AppError.make "Token expired" 401

/-- A rendering of the response record to one string, standing for the
serialized JSON body. -/
def serializeOptStr : Option String → String
  | none => "null"
  | some s => s

def serializeResponse (r : ErrResponse) : String :=
  "status=" ++ serializeOptStr r.status ++ ";code=" ++ Nat.repr r.httpStatus ++
  ";message=" ++ r.message ++ ";detailMessage=" ++ serializeOptStr r.detail.message ++
  ";stack=" ++ (match r.stack with
    | .emptyObj => "{}"
    | .absent => ""
    | .captured => "trace")

example : statusFromCode 400 = "fail" := by decide
example : statusFromCode 401 = "fail" := by decide
example : statusFromCode 500 = "error" := by decide
example :
    (errorHandler { name := "JsonWebTokenError", code := none, message := "jwt malformed",
                    statusCode := none, status := none, isOperational := none,
                    errors := [], stack := none } BuildMode.production).message
      = "Invalid token" := by decide

/-! ## Validator adapter (`src/middleware/validator.js`)

The request is the flat field-to-value map the rules inspect. -/

/-- One entry of `errors.array()`: the spec's `(field, message)` pair. -/
structure Violation where
  field : String
  message : String
deriving DecidableEq

/-- Modelled from the spec: an express-validator rule (the library is not
under `src/`).  Per §4.2 each rule is a pure predicate over one field value
plus optional parameters, carrying the `withMessage` text; a rule marked
optional is vacuously satisfied when the field is absent. -/
structure FieldRule where
  field : String
  optional : Bool
  check : String → Bool
  message : String

def getField (req : List (String × String)) (f : String) : Option String :=
  (req.find? (fun p => p.1 == f)).map (fun p => p.2)

/-- Modelled from the spec: a rule fails when its predicate rejects the
field value; an absent field fails every non-optional rule and satisfies an
optional one. -/
def ruleFails (r : FieldRule) (req : List (String × String)) : Bool :=
  match getField req r.field with
  | none => !r.optional
  | some v => !(r.check v)

def ruleViolation (r : FieldRule) : Violation :=
  { field := r.field, message := r.message }

/-- Modelled from the spec: `Promise.all(validations.map(v => v.run(req)))`
followed by `validationResult(req)` (line 13 and line 16 of the adapter)
runs every rule and collects the failures in declaration order. -/
def runValidations (rules : List FieldRule) (req : List (String × String)) :
    List Violation :=
  (rules.filter (fun r => ruleFails r req)).map ruleViolation

/-- The JSON bodies the middleware under test writes itself:
`validationFail` is `{success: false, message, errors}` (validator line 20)
and `statusMsg` is `{status, message}` (controller catch blocks). -/
inductive RespBody where
  | validationFail (message : String) (errors : List Violation)
  | statusMsg (status : String) (message : String)
deriving DecidableEq

/-- What a middleware invocation does with the request: write a response
itself, pass control on, or raise the failure into the error classifier
via `next(error)`. -/
inductive MWOutcome where
  | respond (httpStatus : Nat) (body : RespBody)
  | callNext
  | raiseErr (e : JsError)
deriving DecidableEq

def isDirectResponse : MWOutcome → Bool
  | .respond _ _ => true
  | _ => false

/-- `validate(validations)` (lines 9-34): run all rules, and on a non-empty
violation list answer 422 directly; only an unexpected exception during
rule execution would reach `next(error)` (rules here are total, so that
arm does not arise). -/
def validate (rules : List FieldRule) (req : List (String × String)) :
    MWOutcome :=
  let errs := runValidations rules req
  if errs.isEmpty = false then
    .respond 422 (.validationFail "Validation failed" errs)
  else
    .callNext

/-- `simulateError` (`mainController.js` lines 82-99): it throws
`createError(...)` and catches its own throw, writing
`res.status(error.statusCode || 500).json({status: 'error', message})`
itself.  `createError` lives in `utils/errorHandler`, absent from `src/`;
modelled from the spec and its call sites as building a failure carrying
the given statusCode and message.  `collected` is the violation list
`validationResult(req)` finds on the request. -/
def simulateError (collected : List Violation) : MWOutcome :=
  if collected.isEmpty = false then
    .respond 400 (.statusMsg "error" "Validation failed")
  else
    .respond 500 (.statusMsg "error" "Simulated server error for testing purposes")

/-! ## Configuration (`ConfigManager` in `src/controllers/mainController.js`) -/

/-- A configuration value: the JSON scalars plus an opaque object marker
(`databaseOptions` and similar defaults). -/
inductive JsVal where
  | num (n : Int)
  | str (s : String)
  | boolV (b : Bool)
  | obj
deriving DecidableEq

/-- JavaScript truthiness of `this.config[key]` restricted to the value
shapes above; an absent key is falsy. -/
def truthy : Option JsVal → Bool
  | none => false
  | some (.num n) => n != 0
  | some (.str s) => s != ""
  | some (.boolV b) => b
  | some .obj => true

/-- `this.config[key]` over the flat store; a later entry for the same key
shadows an earlier one, like a later object-spread assignment. -/
def lookupStore (c : List (String × JsVal)) (k : String) : Option JsVal :=
  c.foldl (fun acc p => if p.1 = k then some p.2 else acc) none

def requiredKeys : List String := ["port", "databaseUrl", "jwtSecret"]

/-- `required.filter(key => !this.config[key])` (line 421). -/
def missingKeys (c : List (String × JsVal)) : List String :=
  requiredKeys.filter (fun k => !(truthy (lookupStore c k)))

/-- `s.startsWith(p)` on the underlying character lists. -/
def strStarts (s p : String) : Bool :=
  p.data.isPrefixOf s.data

/-- `this.config.port && (port < 1 || port > 65535)` (line 428); ports are
numeric values in the JSON configuration. -/
def portRangeBad (v : Option JsVal) : Bool :=
  truthy v && (match v with
    | some (.num n) => decide (n < 1) || decide (n > 65535)
    | _ => false)

/-- Lines 432-433: the accepted storage-scheme check on `databaseUrl`. -/
def dbUrlOk (v : Option JsVal) : Bool :=
  match v with
  | some (.str s) => strStarts s "mongodb://" || strStarts s "postgres://"
  | _ => false

/-- `config.jwtExpiration && isNaN(config.jwtExpiration)` (line 437); the
digit test stands for numeric-string coercion, and a number is never NaN
here. -/
def jwtExpNaN (v : Option JsVal) : Bool :=
  truthy v && (match v with
    | some (.str s) => !(s.data != ([] : List Char) && s.data.all Char.isDigit)
    | _ => false)

/-- `validateConfig` (lines 414-440): missing-key check first, then the
specific checks, each `throw` modelled as `Except.error` with the thrown
message. -/
def ConfigManager.validateConfig (c : List (String × JsVal)) :
    Except String Unit :=
  match missingKeys c with
  | [] =>
    if portRangeBad (lookupStore c "port") then
      .error "Puerto inválido. Debe estar entre 1 y 65535"
    else if !(dbUrlOk (lookupStore c "databaseUrl")) then
      .error "URL de base de datos inválida. Debe ser MongoDB o PostgreSQL"
    else if jwtExpNaN (lookupStore c "jwtExpiration") then
      .error "jwtExpiration debe ser un número válido"
    else
      .ok ()
  | ms => .error ("Configuración incompleta. Faltan: " ++ String.intercalate ", " ms)

structure ConfigManager where
  config : List (String × JsVal)
  isLoaded : Bool
deriving DecidableEq

/-- The constructor (lines 320-323). -/
def ConfigManager.initial : ConfigManager :=
  { config := [], isLoaded := false }

/-- `loadConfig` (lines 330-347).  The two file-reading steps only decide
which entries arrive in `envStore` (`.env` touches `process.env` alone, and
a missing per-environment file contributes nothing); the merge
`{...this.config, ...environmentConfig, environment}` then runs, the result
is validated, and only success sets `isLoaded`.  A thrown validation error
is re-thrown wrapped in the configuration-error message. -/
def ConfigManager.loadConfig (m : ConfigManager)
    (envStore : List (String × JsVal)) (environment : String) :
    Except String ConfigManager :=
  let cfg := m.config ++ envStore ++ [("environment", JsVal.str environment)]
  match ConfigManager.validateConfig cfg with
  | .ok _ => .ok { config := cfg, isLoaded := true }
  | .error msg => .error ("Error de configuración: " ++ msg)

/-- The store `loadConfig` validates when called on the fresh singleton. -/
def startupStore (envStore : List (String × JsVal)) (environment : String) :
    List (String × JsVal) :=
  ConfigManager.initial.config ++ envStore ++ [("environment", JsVal.str environment)]

inductive ProcessOutcome where
  | serving (m : ConfigManager)
  | exited (code : Nat)
deriving DecidableEq

def isServing : ProcessOutcome → Bool
  | .serving _ => true
  | .exited _ => false

/-- Module initialization (lines 504-511): the singleton loads its
configuration at import time and `process.exit(1)` runs on any rejection. -/
def moduleInit (envStore : List (String × JsVal)) (environment : String) :
    ProcessOutcome :=
  match ConfigManager.initial.loadConfig envStore environment with
  | .ok m => .serving m
  | .error _ => .exited 1

/-- `get` (lines 448-454): throws before a successful load, otherwise the
stored value or the supplied default (`null` when omitted). -/
def ConfigManager.get (m : ConfigManager) (key : String)
    (defaultValue : Option JsVal) : Except String (Option JsVal) :=
  if m.isLoaded = false then
    .error "La configuración no ha sido cargada aún"
  else
    .ok (match lookupStore m.config key with
      | some v => some v
      | none => defaultValue)

/-- `getAll` (lines 460-466). -/
def ConfigManager.getAll (m : ConfigManager) :
    Except String (List (String × JsVal)) :=
  if m.isLoaded = false then
    .error "La configuración no ha sido cargada aún"
  else
    .ok m.config

structure DatabaseConfig where
  url : Option JsVal
  options : Option JsVal
deriving DecidableEq

/-- `getDatabaseConfig` (lines 472-477): calls `get`, so it propagates the
not-loaded throw. -/
def ConfigManager.getDatabaseConfig (m : ConfigManager) :
    Except String DatabaseConfig := do
  let url ← m.get "databaseUrl" none
  let options ← m.get "databaseOptions" (some JsVal.obj)
  pure { url := url, options := options }

structure SecurityConfig where
  jwtSecret : Option JsVal
  jwtExpiration : Option JsVal
  sessionSecret : Option JsVal
deriving DecidableEq

/-- `getSecurityConfig` (lines 483-489). -/
def ConfigManager.getSecurityConfig (m : ConfigManager) :
    Except String SecurityConfig := do
  let s ← m.get "jwtSecret" none
  let e ← m.get "jwtExpiration" (some (JsVal.str "24h"))
  let ss ← m.get "sessionSecret" (some (JsVal.str "default-session-secret"))
  pure { jwtSecret := s, jwtExpiration := e, sessionSecret := ss }

structure ServerConfig where
  port : Option JsVal
  host : Option JsVal
  sslEnabled : Option JsVal
deriving DecidableEq

/-- `getServerConfig` (lines 495-501). -/
def ConfigManager.getServerConfig (m : ConfigManager) :
    Except String ServerConfig := do
  let p ← m.get "port" (some (JsVal.num 3000))
  let h ← m.get "host" (some (JsVal.str "localhost"))
  let s ← m.get "sslEnabled" (some (JsVal.boolV false))
  pure { port := p, host := h, sslEnabled := s }

example :
    ConfigManager.validateConfig
      [("port", JsVal.num 3000), ("databaseUrl", JsVal.str "mongodb://h/db"),
       ("jwtSecret", JsVal.str "s")] = Except.ok () := by decide
example :
    moduleInit [("port", JsVal.num 70000),
      ("databaseUrl", JsVal.str "mongodb://h/db"),
      ("jwtSecret", JsVal.str "s")] "production" = ProcessOutcome.exited 1 := by
  decide

/-! ## Concrete failure records and inputs used by the theorems below -/

/-- An unclassified internal fault whose raw message is sensitive. -/
def leakErr : JsError :=
  { name := "TypeError", code := none, message := "secret internal failure detail",
    statusCode := none, status := none, isOperational := none, errors := [],
    stack := some "TypeError: secret internal failure detail at handler" }

/-- An unclassified fault with an ordinary message. -/
def noKindErr : JsError :=
  { name := "RangeError", code := none, message := "value out of range",
    statusCode := none, status := none, isOperational := none, errors := [],
    stack := none }

/-- A failure matching both the cast/type rule and the duplicate-key rule. -/
def dualErr : JsError :=
  { name := "CastError", code := some 11000, message := "Cast to ObjectId failed",
    statusCode := none, status := none, isOperational := none, errors := [],
    stack := none }

/-- A failure matching both the field-validation rule and the duplicate-key
rule. -/
def dualValErr : JsError :=
  { name := "ValidationError", code := some 11000, message := "validation failed",
    statusCode := none, status := none, isOperational := none,
    errors := ["Name is required"], stack := none }

/-- A failure matching exactly the malformed-credential rule. -/
def jwtErr : JsError :=
  { name := "JsonWebTokenError", code := none, message := "jwt malformed",
    statusCode := none, status := none, isOperational := none, errors := [],
    stack := none }

/-- A native unclassified fault: empty message, no hint, no status. -/
def bareErr : JsError :=
  { name := "Error", code := none, message := "", statusCode := none,
    status := none, isOperational := none, errors := [], stack := none }

/-- An unclassified fault carrying a caller-supplied hint and message. -/
def hintErr : JsError :=
  { name := "Error", code := none, message := "teapot refusal",
    statusCode := some 418, status := none, isOperational := none, errors := [],
    stack := none }

/-- A fault with no status-code hint, to watch the in-place default. -/
def mutErr : JsError :=
  { name := "Error", code := none, message := "boom", statusCode := none,
    status := none, isOperational := none, errors := [], stack := none }

/-- A fault whose hint and message are both present and truthy. -/
def keepErr : JsError :=
  { name := "Error", code := none, message := "not found",
    statusCode := some 404, status := some "fail", isOperational := some true,
    errors := [], stack := none }

/-- The spec scenario rule: name length 2-50. -/
def nameRule : FieldRule :=
  { field := "name", optional := false,
    check := fun v => decide (2 ≤ v.length) && decide (v.length ≤ 50),
    message := "Name must be between 2 and 50 characters long" }

def shortReq : List (String × String) := [("name", "A")]

def okReq : List (String × String) := [("name", "Ana")]

def nameViolation : Violation :=
  { field := "name", message := "Name must be between 2 and 50 characters long" }

/-- The spec scenario configuration: `port = 70000`. -/
def badPortStore : List (String × JsVal) :=
  [("port", JsVal.num 70000), ("databaseUrl", JsVal.str "mongodb://localhost/app"),
   ("jwtSecret", JsVal.str "secret")]

/-- A complete, well-formed configuration. -/
def goodStore : List (String × JsVal) :=
  [("port", JsVal.num 3000), ("databaseUrl", JsVal.str "mongodb://localhost/app"),
   ("jwtSecret", JsVal.str "secret")]

/-- The manager state a successful load of `goodStore` produces. -/
def loadedMgr : ConfigManager :=
  { config := startupStore goodStore "test", isLoaded := true }

/-! ## Helper lemmas -/

theorem buildResponse_stack_production (h : HandlerError) :
    (buildResponse h BuildMode.production).stack = StackField.emptyObj := by
  cases h <;> rfl

theorem buildResponse_detail_code (h : HandlerError) (m : BuildMode) :
    ((buildResponse h m).detail.statusCode).isSome = true := by
  cases h <;> rfl

theorem statusFromCode_four_hundred : statusFromCode 400 = "fail" := by decide

theorem statusFromCode_four_oh_one : statusFromCode 401 = "fail" := by decide

theorem matchedKinds_nil_iff (e : JsError) :
    matchedKinds e = [] ↔
      ¬e.name = "CastError" ∧ ¬e.code = some 11000 ∧ ¬e.name = "ValidationError" ∧
      ¬e.name = "JsonWebTokenError" ∧ ¬e.name = "TokenExpiredError" := by
  by_cases h1 : e.name = "CastError" <;>
  by_cases h2 : e.code = some 11000 <;>
  by_cases h3 : e.name = "ValidationError" <;>
  by_cases h4 : e.name = "JsonWebTokenError" <;>
  by_cases h5 : e.name = "TokenExpiredError" <;>
  simp_all [matchedKinds, ruleOrder, ruleMatches, List.filter_cons, List.filter_nil]

theorem classifyErr_unmatched (e : JsError) (h : matchedKinds e = []) :
    classifyErr e = HandlerError.plainObj (jsOrDefaultCode e.statusCode)
      (jsOrDefaultMsg e.message) e.status e.isOperational := by
  obtain ⟨h1, h2, h3, h4, h5⟩ := (matchedKinds_nil_iff e).mp h
  simp [classifyErr, h1, h2, h3, h4, h5]

theorem missing_key_error (c : List (String × JsVal)) (k : String)
    (hk : k ∈ requiredKeys) (h : truthy (lookupStore c k) = false) :
    ∃ msg, ConfigManager.validateConfig c = Except.error msg := by
  have hmem : k ∈ missingKeys c := List.mem_filter.mpr ⟨hk, by simp [h]⟩
  cases hm : missingKeys c with
  | nil => rw [hm] at hmem; cases hmem
  | cons a t =>
    exact ⟨"Configuración incompleta. Faltan: " ++ String.intercalate ", " (a :: t),
      by simp [ConfigManager.validateConfig, hm]⟩

/-! ## Claim theorems -/

/-- C1 counterexample: the claim is false. For an unclassified failure
handled in a production build, the raw internal message appears verbatim as
the response body's `message` and inside the `error` detail object, and the
detail object is populated (its statusCode field is present). -/
theorem c1_counterexample :
    (errorHandler leakErr BuildMode.production).message
        = "secret internal failure detail" ∧
    (errorHandler leakErr BuildMode.production).detail.message
        = some "secret internal failure detail" ∧
    ((errorHandler leakErr BuildMode.production).detail.statusCode).isSome = true := by
  exact ⟨by decide, by decide, by decide⟩

/-- C1 (corrected): in a production build the `stack` field of the body is
always the empty object and the response is independent of the failure's
stack attribute, so the stack trace never reaches the body; but the
`error` detail field is populated in every build, and for an unclassified
failure the body's message is the failure's own (defaulted) raw message. -/
theorem c1_production_stack_confinement (e : JsError) (s : Option String) :
    (errorHandler e BuildMode.production).stack = StackField.emptyObj ∧
    errorHandler { e with stack := s } BuildMode.production
        = errorHandler e BuildMode.production ∧
    ((errorHandler e BuildMode.production).detail.statusCode).isSome = true ∧
    (matchedKinds e = [] →
      (errorHandler e BuildMode.production).message = jsOrDefaultMsg e.message) := by
  refine ⟨buildResponse_stack_production _, rfl, buildResponse_detail_code _ _, ?_⟩
  intro h
  have hc := classifyErr_unmatched e h
  simp [errorHandler, errorHandlerPair, hc, buildResponse]

/-- C1 witness: the corrected statement at a concrete unclassified failure. -/
theorem c1_witness :
    (errorHandler noKindErr BuildMode.production).stack = StackField.emptyObj ∧
    (errorHandler noKindErr BuildMode.production).message
        = jsOrDefaultMsg noKindErr.message := by
  have h := c1_production_stack_confinement noKindErr none
  exact ⟨h.1, h.2.2.2 (by decide)⟩

/-- C2 counterexample: the claim is false. `dualErr` matches both the
cast/type rule (first in the §4.1 order) and the duplicate-key rule, yet
the handler answers with the duplicate-key message, not the earliest
matching rule's. -/
theorem c2_counterexample :
    (matchedKinds dualErr).head? = some ClassKind.cast ∧
    (classEntry dualErr ClassKind.cast).message = "Invalid ID format" ∧
    (errorHandler dualErr BuildMode.production).message
        = "Duplicate field value entered" ∧
    ¬(errorHandler dualErr BuildMode.production).message
        = (classEntry dualErr ClassKind.cast).message := by
  exact ⟨by decide, by decide, by decide, by decide⟩

/-- C2 (corrected): the six rules are independent `if` statements, each
match overwriting the previous result, so for a failure matching more than
one kind the response is that of the LATEST matching rule in source order
(cast, duplicate-key, validation, malformed credential, expired
credential), not the earliest. -/
theorem c2_last_match_wins (e : JsError) (m : BuildMode)
    (h : e.code = some 11000) :
    (e.name = "CastError" →
      errorHandler e m
        = buildResponse (HandlerError.app (classEntry e ClassKind.dup)) m) ∧
    (e.name = "ValidationError" →
      errorHandler e m
        = buildResponse (HandlerError.app (classEntry e ClassKind.validation)) m) ∧
    (e.name = "JsonWebTokenError" →
      errorHandler e m
        = buildResponse (HandlerError.app (classEntry e ClassKind.jwt)) m) ∧
    (e.name = "TokenExpiredError" →
      errorHandler e m
        = buildResponse (HandlerError.app (classEntry e ClassKind.expired)) m) := by
  refine ⟨fun hn => ?_, fun hn => ?_, fun hn => ?_, fun hn => ?_⟩ <;>
    simp [errorHandler, errorHandlerPair, classifyErr, classEntry, h, hn]

/-- C2 witness: a duplicate-key plus validation failure classifies as the
later (validation) rule. -/
theorem c2_witness :
    errorHandler dualValErr BuildMode.development
      = buildResponse
          (HandlerError.app (classEntry dualValErr ClassKind.validation))
          BuildMode.development := by
  exact (c2_last_match_wins dualValErr BuildMode.development (by decide)).2.1 (by decide)

/-- C3 (confirmed): a failure matching exactly one classified kind gets the
fixed table entry: cast 400 "Invalid ID format"; duplicate-key 400
"Duplicate field value entered"; validation 400 with the comma-joined
per-field messages in collection order; malformed credential 401 "Invalid
token" with status "fail"; expired credential 401 "Token expired". -/
theorem c3_classified_table (e : JsError) (m : BuildMode) (k : ClassKind)
    (h : matchedKinds e = [k]) :
    (k = ClassKind.cast →
      (errorHandler e m).httpStatus = 400 ∧
      (errorHandler e m).message = "Invalid ID format") ∧
    (k = ClassKind.dup →
      (errorHandler e m).httpStatus = 400 ∧
      (errorHandler e m).message = "Duplicate field value entered") ∧
    (k = ClassKind.validation →
      (errorHandler e m).httpStatus = 400 ∧
      (errorHandler e m).message = String.intercalate ", " e.errors) ∧
    (k = ClassKind.jwt →
      (errorHandler e m).httpStatus = 401 ∧
      (errorHandler e m).message = "Invalid token" ∧
      (errorHandler e m).status = some "fail") ∧
    (k = ClassKind.expired →
      (errorHandler e m).httpStatus = 401 ∧
      (errorHandler e m).message = "Token expired") := by
  by_cases h1 : e.name = "CastError" <;>
  by_cases h2 : e.code = some 11000 <;>
  by_cases h3 : e.name = "ValidationError" <;>
  by_cases h4 : e.name = "JsonWebTokenError" <;>
  by_cases h5 : e.name = "TokenExpiredError" <;>
  simp_all [matchedKinds, ruleOrder, ruleMatches, List.filter_cons, List.filter_nil,
    errorHandler, errorHandlerPair, classifyErr, buildResponse, AppError.make,
    statusFromCode_four_hundred, statusFromCode_four_oh_one] <;>
  (try subst h) <;> simp_all

/-- C3 witness: the spec's malformed-credential scenario. -/
theorem c3_witness :
    (errorHandler jwtErr BuildMode.production).httpStatus = 401 ∧
    (errorHandler jwtErr BuildMode.production).message = "Invalid token" ∧
    (errorHandler jwtErr BuildMode.production).status = some "fail" := by
  exact (c3_classified_table jwtErr BuildMode.production ClassKind.jwt
    (by decide)).2.2.2.1 rfl

/-- C4 counterexample: the claim is false. A native unclassified fault with
no caller-supplied code gets statusCode 500 and message "Internal Server
Error" as claimed, but its `status` field is absent, not "error": the
handler copies the failure's own status attribute instead of deriving one. -/
theorem c4_counterexample :
    matchedKinds bareErr = [] ∧
    (errorHandler bareErr BuildMode.production).httpStatus = 500 ∧
    (errorHandler bareErr BuildMode.production).message = "Internal Server Error" ∧
    (errorHandler bareErr BuildMode.production).status = none ∧
    ¬(errorHandler bareErr BuildMode.production).status = some "error" := by
  exact ⟨by decide, by decide, by decide, by decide, by decide⟩

/-- C4 (corrected): for an unclassified failure the handler preserves a
truthy caller-supplied statusCodeHint (default 500) and a non-empty
caller-supplied message (default "Internal Server Error"), and the
response's `status` field is the failure record's own status attribute
passed through unchanged - it is derived from the leading digit only at
`AppError` construction time, so a failure not built as an `AppError`
yields no status word at all. -/
theorem c4_unclassified_passthrough (e : JsError) (m : BuildMode)
    (h : matchedKinds e = []) :
    (errorHandler e m).httpStatus = jsOrDefaultCode e.statusCode ∧
    (errorHandler e m).message = jsOrDefaultMsg e.message ∧
    (errorHandler e m).status = e.status ∧
    (∀ n, e.statusCode = some n → ¬n = 0 → (errorHandler e m).httpStatus = n) ∧
    (e.statusCode = none → (errorHandler e m).httpStatus = 500) ∧
    (¬e.message = "" → (errorHandler e m).message = e.message) ∧
    (e.message = "" → (errorHandler e m).message = "Internal Server Error") := by
  have hc := classifyErr_unmatched e h
  refine ⟨?_, ?_, ?_, ?_, ?_, ?_, ?_⟩
  · simp [errorHandler, errorHandlerPair, hc, buildResponse]
  · simp [errorHandler, errorHandlerPair, hc, buildResponse]
  · simp [errorHandler, errorHandlerPair, hc, buildResponse]
  · intro n hn h0
    simp [errorHandler, errorHandlerPair, hc, buildResponse, hn, jsOrDefaultCode, h0]
  · intro hn
    simp [errorHandler, errorHandlerPair, hc, buildResponse, hn, jsOrDefaultCode]
  · intro hm
    simp [errorHandler, errorHandlerPair, hc, buildResponse, jsOrDefaultMsg, hm]
  · intro hm
    simp [errorHandler, errorHandlerPair, hc, buildResponse, jsOrDefaultMsg, hm]

/-- C4 witness: a caller-supplied 418 hint and message survive unchanged. -/
theorem c4_witness :
    (errorHandler hintErr BuildMode.production).httpStatus = 418 ∧
    (errorHandler hintErr BuildMode.production).message = "teapot refusal" ∧
    (errorHandler hintErr BuildMode.production).status = none := by
  have h := c4_unclassified_passthrough hintErr BuildMode.production (by decide)
  exact ⟨h.2.2.2.1 418 rfl (by decide), h.2.2.2.2.2.1 (by decide), h.2.2.1⟩

/-- C8 counterexample: the claim is false. The handler mutates the failure
record it receives: a failure with no statusCodeHint has one (500) after
the call. -/
theorem c8_counterexample :
    mutErr.statusCode = none ∧
    (errorHandlerPair mutErr BuildMode.production).1.statusCode = some 500 ∧
    ¬(errorHandlerPair mutErr BuildMode.production).1.statusCode
        = mutErr.statusCode := by
  exact ⟨by decide, by decide, by decide⟩

/-- C8 (corrected): the handler's only mutation of the failure record is
the in-place defaulting of lines 37-38: kind (name and code), the
operational flag, the violation collection, the status word and the stack
are unchanged, statusCode becomes its defaulted value and message its
defaulted value; when both were already present and truthy the record is
unchanged. -/
theorem c8_mutation_scope (e : JsError) (m : BuildMode) :
    (errorHandlerPair e m).1.name = e.name ∧
    (errorHandlerPair e m).1.code = e.code ∧
    (errorHandlerPair e m).1.isOperational = e.isOperational ∧
    (errorHandlerPair e m).1.errors = e.errors ∧
    (errorHandlerPair e m).1.status = e.status ∧
    (errorHandlerPair e m).1.stack = e.stack ∧
    (errorHandlerPair e m).1.statusCode = some (jsOrDefaultCode e.statusCode) ∧
    (errorHandlerPair e m).1.message = jsOrDefaultMsg e.message ∧
    (∀ n, e.statusCode = some n → ¬n = 0 → ¬e.message = "" →
      (errorHandlerPair e m).1 = e) := by
  refine ⟨rfl, rfl, rfl, rfl, rfl, rfl, rfl, rfl, ?_⟩
  intro n hn h0 hm
  cases e with
  | mk nm cd msg sc st op ers stk =>
    simp_all [errorHandlerPair, normalizeErr, jsOrDefaultCode, jsOrDefaultMsg]

/-- C8 witness: a failure with truthy hint and message is returned intact. -/
theorem c8_witness :
    (errorHandlerPair keepErr BuildMode.development).1 = keepErr := by
  exact (c8_mutation_scope keepErr BuildMode.development).2.2.2.2.2.2.2.2
    404 rfl (by decide) (by decide)

/-- C9 (confirmed): classification is deterministic - the handler is a pure
function of the failure record and the build flag, so identical inputs
yield the same response record and a byte-identical serialized body. -/
theorem c9_deterministic (e1 e2 : JsError) (m1 m2 : BuildMode)
    (he : e1 = e2) (hm : m1 = m2) :
    errorHandler e1 m1 = errorHandler e2 m2 ∧
    serializeResponse (errorHandler e1 m1)
      = serializeResponse (errorHandler e2 m2) := by
  subst he
  subst hm
  exact ⟨rfl, rfl⟩

/-- C9 witness: determinism at a concrete failure. -/
theorem c9_witness :
    serializeResponse (errorHandler jwtErr BuildMode.development)
      = serializeResponse (errorHandler jwtErr BuildMode.development) := by
  exact (c9_deterministic jwtErr jwtErr BuildMode.development BuildMode.development
    rfl rfl).2

/-- C5 counterexample: the claim is false. On a non-empty violation list
the validator writes the 422 response itself instead of diverting to the
classifier, and `simulateError` writes its own error response in its catch
block; the classifier is not the single terminal point. -/
theorem c5_counterexample :
    isDirectResponse (validate [nameRule] shortReq) = true ∧
    validate [nameRule] shortReq
      = MWOutcome.respond 422
          (RespBody.validationFail "Validation failed" [nameViolation]) ∧
    isDirectResponse (simulateError [nameViolation]) = true := by
  exact ⟨by decide, by decide, by decide⟩

/-- C5 (corrected): on a non-empty violation list the validator answers
422 `{success: false, message: "Validation failed", errors}` directly
(only an unexpected rule-execution exception would reach `next(error)`),
and `simulateError` always writes its own response in its catch block -
400 on validation violations, otherwise the simulated 500; neither
component diverts these failures to the classifier. -/
theorem c5_direct_response (rules : List FieldRule)
    (req : List (String × String)) (collected : List Violation) :
    (¬runValidations rules req = [] →
      validate rules req
        = MWOutcome.respond 422
            (RespBody.validationFail "Validation failed" (runValidations rules req))) ∧
    (runValidations rules req = [] → validate rules req = MWOutcome.callNext) ∧
    (¬collected = [] →
      simulateError collected
        = MWOutcome.respond 400 (RespBody.statusMsg "error" "Validation failed")) ∧
    (collected = [] →
      simulateError collected
        = MWOutcome.respond 500
            (RespBody.statusMsg "error" "Simulated server error for testing purposes")) := by
  refine ⟨?_, ?_, ?_, ?_⟩
  · intro h
    cases hr : runValidations rules req with
    | nil => exact absurd hr h
    | cons a t => simp [validate, hr]
  · intro h
    simp [validate, h]
  · intro h
    cases hc : collected with
    | nil => exact absurd hc h
    | cons a t => simp [simulateError, hc]
  · intro h
    simp [simulateError, h]

/-- C5 witness: the corrected statement at the spec's scenario input. -/
theorem c5_witness :
    validate [nameRule] shortReq
      = MWOutcome.respond 422
          (RespBody.validationFail "Validation failed"
            (runValidations [nameRule] shortReq)) ∧
    simulateError []
      = MWOutcome.respond 500
          (RespBody.statusMsg "error" "Simulated server error for testing purposes") := by
  exact ⟨(c5_direct_response [nameRule] shortReq []).1 (by decide),
    (c5_direct_response [nameRule] shortReq []).2.2.2 rfl⟩

/-- C6 (confirmed): the adapter runs every rule (no short-circuit): the
violation list is the image of the failing rules, a sublist of the declared
order, with exactly one entry per failing rule; it is empty when no rule
fails, control then proceeds, and it is non-empty exactly when the
aggregate check reports some failing rule, in which case control does not
proceed. -/
theorem c6_run_all_rules (rules : List FieldRule)
    (req : List (String × String)) :
    ((∀ r ∈ rules, ruleFails r req = false) →
      runValidations rules req = [] ∧ validate rules req = MWOutcome.callNext) ∧
    (runValidations rules req).length
      = rules.countP (fun r => ruleFails r req) ∧
    runValidations rules req
      = (rules.filter (fun r => ruleFails r req)).map ruleViolation ∧
    List.Sublist (rules.filter (fun r => ruleFails r req)) rules ∧
    (¬runValidations rules req = []
      ↔ rules.any (fun r => ruleFails r req) = true) ∧
    (¬runValidations rules req = []
      ↔ ¬validate rules req = MWOutcome.callNext) := by
  refine ⟨?_, ?_, rfl, List.filter_sublist _, ?_, ?_⟩
  · intro h
    have hf : rules.filter (fun r => ruleFails r req) = [] := by
      rw [List.filter_eq_nil_iff]
      intro r hr
      simp [h r hr]
    refine ⟨by simp [runValidations, hf], ?_⟩
    simp [validate, runValidations, hf]
  · simp [runValidations, List.countP_eq_length_filter]
  · simp [runValidations, List.any_eq_true, List.filter_eq_nil_iff]
  · cases hr : runValidations rules req with
    | nil => simp [validate, hr]
    | cons a t => simp [validate, hr]

/-- C6 witness: the spec's scenario - `{name: "A"}` against the 2-50 length
rule yields exactly one ordered violation, while a passing input yields
none and control proceeds. -/
theorem c6_witness :
    runValidations [nameRule] okReq = [] ∧
    validate [nameRule] okReq = MWOutcome.callNext := by
  exact (c6_run_all_rules [nameRule] okReq).1 (by decide)

/-- C7 (confirmed): when any required key (port, databaseUrl, jwtSecret) is
missing (falsy) in the merged configuration, or the port is a number
outside 1-65535, the import-time load rejects and the process exits with
code 1, never reaching a serving state. -/
theorem c7_fatal_config (envStore : List (String × JsVal)) (environment : String)
    (h : truthy (lookupStore (startupStore envStore environment) "port") = false ∨
      (∃ n, lookupStore (startupStore envStore environment) "port"
          = some (JsVal.num n) ∧ (n < 1 ∨ n > 65535)) ∨
      truthy (lookupStore (startupStore envStore environment) "databaseUrl") = false ∨
      truthy (lookupStore (startupStore envStore environment) "jwtSecret") = false) :
    moduleInit envStore environment = ProcessOutcome.exited 1 ∧
    isServing (moduleInit envStore environment) = false := by
  have hv : ∃ msg, ConfigManager.validateConfig (startupStore envStore environment)
      = Except.error msg := by
    rcases h with hp | ⟨n, hn, hrange⟩ | hdb | hjwt
    · exact missing_key_error _ "port" (by decide) hp
    · cases hm : missingKeys (startupStore envStore environment) with
      | cons a t =>
        exact ⟨"Configuración incompleta. Faltan: " ++ String.intercalate ", " (a :: t),
          by simp [ConfigManager.validateConfig, hm]⟩
      | nil =>
        have hpred : (!(truthy (lookupStore (startupStore envStore environment) "port")))
            = false := by
          by_contra hc
          have hmem : "port" ∈ missingKeys (startupStore envStore environment) :=
            List.mem_filter.mpr ⟨by decide, by simpa using hc⟩
          rw [hm] at hmem
          cases hmem
        have htr : truthy (lookupStore (startupStore envStore environment) "port")
            = true := by simpa using hpred
        have hne : ¬n = 0 := by
          intro h0
          rw [hn, h0] at htr
          simp [truthy] at htr
        have hbad : portRangeBad (lookupStore (startupStore envStore environment) "port")
            = true := by
          rw [hn]
          simp [portRangeBad, truthy, hne]
          rcases hrange with hr | hr
          · exact Or.inl hr
          · exact Or.inr hr
        exact ⟨"Puerto inválido. Debe estar entre 1 y 65535",
          by simp [ConfigManager.validateConfig, hm, hbad]⟩
    · exact missing_key_error _ "databaseUrl" (by decide) hdb
    · exact missing_key_error _ "jwtSecret" (by decide) hjwt
  obtain ⟨msg, hmsg⟩ := hv
  have hout : moduleInit envStore environment = ProcessOutcome.exited 1 := by
    simp [startupStore, ConfigManager.initial] at hmsg
    simp [moduleInit, ConfigManager.loadConfig, ConfigManager.initial, hmsg]
  exact ⟨hout, by simp [hout, isServing]⟩

/-- C7 witness: the spec's scenario - `port = 70000` is fatal. -/
theorem c7_witness :
    moduleInit badPortStore "production" = ProcessOutcome.exited 1 ∧
    isServing (moduleInit badPortStore "production") = false := by
  exact c7_fatal_config badPortStore "production"
    (Or.inr (Or.inl ⟨70000, by decide, by decide⟩))

/-- C10 (confirmed): every read accessor (`get`, `getAll` and the typed
group accessors built on `get`) throws the not-loaded error while
`isLoaded` is false - in particular on the freshly constructed singleton -
and an accessor returns a value only in the loaded state, which a
successful `loadConfig` establishes. -/
theorem c10_accessors_require_load (m : ConfigManager) (key : String)
    (d : Option JsVal) (envStore : List (String × JsVal)) (environment : String)
    (m2 : ConfigManager) :
    (m.isLoaded = false →
      m.get key d = Except.error "La configuración no ha sido cargada aún" ∧
      m.getAll = Except.error "La configuración no ha sido cargada aún" ∧
      m.getDatabaseConfig = Except.error "La configuración no ha sido cargada aún" ∧
      m.getSecurityConfig = Except.error "La configuración no ha sido cargada aún" ∧
      m.getServerConfig = Except.error "La configuración no ha sido cargada aún") ∧
    (ConfigManager.initial.get key d
      = Except.error "La configuración no ha sido cargada aún") ∧
    (m.loadConfig envStore environment = Except.ok m2 →
      m2.isLoaded = true ∧
      m2.get key d = Except.ok (match lookupStore m2.config key with
        | some v => some v
        | none => d)) ∧
    (∀ v, m.get key d = Except.ok v → m.isLoaded = true) := by
  refine ⟨?_, ?_, ?_, ?_⟩
  · intro h
    have hg : ∀ k dv, m.get k dv
        = Except.error "La configuración no ha sido cargada aún" := by
      intro k dv
      simp [ConfigManager.get, h]
    refine ⟨hg key d, by simp [ConfigManager.getAll, h], ?_, ?_, ?_⟩
    · rw [ConfigManager.getDatabaseConfig]
      rw [hg]
      rfl
    · rw [ConfigManager.getSecurityConfig]
      rw [hg]
      rfl
    · rw [ConfigManager.getServerConfig]
      rw [hg]
      rfl
  · simp [ConfigManager.get, ConfigManager.initial]
  · intro hl
    rw [ConfigManager.loadConfig] at hl
    cases hv : ConfigManager.validateConfig
        (m.config ++ envStore ++ [("environment", JsVal.str environment)]) with
    | ok u =>
      rw [hv] at hl
      simp at hl
      have h2 : m2.isLoaded = true := by rw [← hl]
      exact ⟨h2, by simp [ConfigManager.get, h2]⟩
    | error msg =>
      rw [hv] at hl
      simp at hl
  · intro v hv
    cases hl : m.isLoaded with
    | true => rfl
    | false =>
      rw [ConfigManager.get, if_pos hl] at hv
      cases hv

/-- C10 witness: the fresh singleton's accessors throw, and the state a
successful load yields answers reads. -/
theorem c10_witness :
    ConfigManager.initial.getServerConfig
      = Except.error "La configuración no ha sido cargada aún" ∧
    loadedMgr.isLoaded = true := by
  refine ⟨((c10_accessors_require_load ConfigManager.initial "port" none [] "x"
    ConfigManager.initial).1 rfl).2.2.2.2, ?_⟩
  exact ((c10_accessors_require_load ConfigManager.initial "port" none goodStore "test"
    loadedMgr).2.2.1 (by decide)).1
